import Mathlib

/-!
Shallow embedding of the conversion orchestration engine of the
Video-converter repository (final variant, `VC135.py`).

Pure logic (time-window gate, scanner filter, command builder, encoder
probe parsing, disposal rules) is translated to executable Lean
functions; the effectful parts of `convert_file` are modelled by an
explicit environment record carrying the outcome of each external
effect (subprocess exit codes, filesystem operations), and the
scan/worker interleaving by a small step relation.
-/

/-- Configuration snapshot, mirroring the settings attributes read by
`VideoConverterApp.__init__` / `update_settings` (`VC135.py:848-862`).
`retention_time` is an `Int` because the JSON schema constrains it only
by `"minimum": 0`; times of day are total minutes since midnight (the
code parses `"HH:MM"` strings and compares `datetime.time` values,
which order exactly like their minute counts). -/
structure ConversionSettings where
  source_folder : String
  destination_folder : String
  backup_folder : String
  delete_after_conversion : Bool
  retention_time : Int
  use_backup : Bool
  output_format : String
  video_codec : String
  audio_codec : String
  copy_only : Bool
  start_time : Nat
  end_time : Nat
  no_time_restrictions : Bool
deriving Repr, DecidableEq

/-- `validate_settings` (`VC135.py:77-104`) checks the snapshot against a
jsonschema: field types, required keys, and `retention_time >= 0`.  On
this typed record the field types and presence hold by construction, so
the residual check is the `minimum: 0` bound on `retention_time`.  The
schema has no cross-field constraint (in particular none linking
`use_backup`, `delete_after_conversion` and `retention_time`). -/
def validate_settings (s : ConversionSettings) : Bool :=
  decide (0 ≤ s.retention_time)

/-- `VideoConverterApp.is_within_allowed_hours` (`VC135.py:1412-1431`),
with the current wall-clock time of day and the parsed start/end times
passed explicitly as minutes since midnight. -/
def is_within_allowed_hours (now startTime endTime : Nat)
    (noTimeRestrictions : Bool) : Bool :=
  if noTimeRestrictions then
    true
  else if startTime ≤ endTime then
    decide (startTime ≤ now) && decide (now ≤ endTime)
  else
    -- time range crosses midnight
    decide (now ≥ startTime) || decide (now ≤ endTime)

/-- The supported input extensions tuple of `convert_videos`
(`VC135.py:1616-1621`). -/
def supported_formats : List String :=
  [".mp4", ".avi", ".wmv", ".mkv", ".flv", ".webm", ".mov", ".mpeg",
   ".mpg", ".m4v", ".3gp", ".ts", ".vob", ".rm", ".rmvb", ".asf",
   ".m2ts", ".mts", ".ogv", ".divx", ".dv", ".f4v", ".mxf", ".nut",
   ".ogm", ".qt", ".tod", ".vro"]

/-- `str.lower` over the character list (ASCII case folding, which is
all the extension tuple needs). -/
def lowerStr (s : String) : String :=
  String.mk (s.toList.map Char.toLower)

/-- `s.endswith(suffix)` via the character lists. -/
def strEndsWith (s suffix : String) : Bool :=
  List.isPrefixOf suffix.toList.reverse s.toList.reverse

/-- `f.lower().endswith(supported_formats)` from `VC135.py:1624`. -/
def matchesSupported (f : String) : Bool :=
  supported_formats.any (fun ext => strEndsWith (lowerStr f) ext)

/-- Index of the last `'.'` in a character list, if any. -/
def lastDotAux : List Char → Nat → Option Nat → Option Nat
  | [], _, acc => acc
  | c :: rest, i, acc =>
      lastDotAux rest (i + 1) (if c = '.' then some i else acc)

/-- `os.path.splitext(f)[0]` for a bare file name (no directory
separators): everything before the last dot, except that a name whose
characters before that dot are all dots has no extension and is
returned whole. -/
def splitextRoot (f : String) : String :=
  match lastDotAux f.toList 0 none with
  | none => f
  | some i =>
      if (f.toList.take i).all (fun c => c = '.') then f
      else String.mk (f.toList.take i)

/-- `os.path.join` restricted to one directory and one file name. -/
def joinPath (dir name : String) : String := dir ++ "/" ++ name

/-- The destination artifact name for a source file name:
`f if self.copy_only else os.path.splitext(f)[0] + '.' + output_format`
(`VC135.py:1460,1625`). -/
def destination_name (fileName : String) (copyOnly : Bool)
    (outputFormat : String) : String :=
  if copyOnly then fileName
  else splitextRoot fileName ++ "." ++ outputFormat

/-- The scanner filter of `convert_videos` (`VC135.py:1622-1626`):
keep the source-directory entries with a supported extension whose
destination artifact is not already present in the destination
directory.  The directory contents are passed as listings of names. -/
def convert_videos_scan (srcListing destListing : List String)
    (copyOnly : Bool) (outputFormat : String) : List String :=
  srcListing.filter (fun f =>
    matchesSupported f &&
      !(destListing.contains (destination_name f copyOnly outputFormat)))

/-- One vendor entry of the `GPU_ENCODERS` mapping
(`VC135.py:208-217`). -/
structure EncoderPair where
  h264 : String
  hevc : String
deriving Repr, DecidableEq

/-- Outcome of running `ffmpeg -encoders`: the binary can be missing
(`subprocess.run` raises `FileNotFoundError`) or run to completion with
an exit code and captured stdout. -/
inductive ToolInvocation where
  | toolMissing
  | exited (code : Int) (stdout : String)

/-- `sub` occurs as a contiguous run inside `cs`. -/
def listContainsSub (sub : List Char) : List Char → Bool
  | [] => sub.isEmpty
  | c :: rest => List.isPrefixOf sub (c :: rest) || listContainsSub sub rest

/-- `sub in s` for strings. -/
def containsSubstr (s sub : String) : Bool :=
  listContainsSub sub.toList s.toList

/-- The parsing body of `get_supported_encoders` (`VC135.py:204-219`):
lower-case the capability listing and probe it for the known encoder
name substrings, building the vendor mapping in insertion order
nvidia, intel, amd. -/
def parse_encoders (stdout : String) : List (String × EncoderPair) :=
  let encoders := stdout.toLower
  let nvidia :=
    if containsSubstr encoders "h264_nvenc" ||
        containsSubstr encoders "hevc_nvenc" then
      [("nvidia", EncoderPair.mk "h264_nvenc" "hevc_nvenc")]
    else []
  let intel :=
    if containsSubstr encoders "h264_qsv" ||
        containsSubstr encoders "hevc_qsv" then
      [("intel", EncoderPair.mk "h264_qsv" "hevc_qsv")]
    else []
  let amd :=
    if containsSubstr encoders "h264_amf" ||
        containsSubstr encoders "hevc_amf" then
      [("amd", EncoderPair.mk "h264_amf" "hevc_amf")]
    else []
  nvidia ++ intel ++ amd

/-- `get_supported_encoders` (`VC135.py:187-222`).  `subprocess.run`
with `check=True` raises `CalledProcessError` on a non-zero exit, which
the `except` clause catches, returning `{}`; but a missing `ffmpeg.exe`
raises `FileNotFoundError`, which no clause catches, so it propagates
out of the function (modelled as `Except.error`). -/
def get_supported_encoders :
    ToolInvocation → Except String (List (String × EncoderPair))
  | .toolMissing => .error "FileNotFoundError"
  | .exited code stdout =>
      if code == 0 then .ok (parse_encoders stdout)
      else .ok []

/-- `VideoConverterApp.get_gpu_encoder` (`VC135.py:1678-1689`): fixed
priority nvidia, then intel, then amd over the cached mapping. -/
def get_gpu_encoder (gpuEncoders : List (String × EncoderPair)) :
    Option EncoderPair :=
  match gpuEncoders.lookup "nvidia" with
  | some enc => some enc
  | none =>
      match gpuEncoders.lookup "intel" with
      | some enc => some enc
      | none => gpuEncoders.lookup "amd"

/-- `resource_path('ffmpeg.exe')`, with path resolution abstracted to
the bare resource name. -/
def ffmpegExe : String := "ffmpeg.exe"

/-- `VideoConverterApp.build_ffmpeg_command` (`VC135.py:1644-1676`).
`self.audio_codec or 'libmp3lame'` falls back exactly when the
configured codec is falsy, i.e. the empty string here; in the GPU
branch `gpu_encoder.get('h264', self.video_codec)` always finds the
`'h264'` key because every `GPU_ENCODERS` entry carries one. -/
def build_ffmpeg_command (s : ConversionSettings)
    (gpuEncoders : List (String × EncoderPair))
    (inputFile outputFile : String) : List String :=
  let gpuEncoder := get_gpu_encoder gpuEncoders
  if s.output_format == "mp3" then
    [ffmpegExe, "-y", "-i", inputFile,
     "-vn",
     "-acodec", (if s.audio_codec == "" then "libmp3lame" else s.audio_codec),
     outputFile]
  else
    match gpuEncoder with
    | some enc =>
        [ffmpegExe, "-y", "-i", inputFile,
         "-vcodec", enc.h264,
         "-acodec", s.audio_codec,
         outputFile]
    | none =>
        [ffmpegExe, "-y", "-i", inputFile,
         "-vcodec", s.video_codec,
         "-acodec", s.audio_codec,
         outputFile]

/-- Seconds per day: `threading.Timer(self.retention_time * 86400, ...)`
(`VC135.py:1585`). -/
def secondsPerDay : Int := 86400

/-- Effect of the post-success disposal block on the source file. -/
structure DisposalResult where
  /-- the source file still exists at its original path -/
  sourceExists : Bool
  /-- where the source was moved on a successful backup move -/
  backupDest : Option String
  /-- the source was deleted immediately (`delete_file` called inline) -/
  deletedNow : Bool
  /-- fire time (seconds) of a scheduled deletion timer, if one was started -/
  pending : Option Int
deriving Repr, DecidableEq

/-- The disposal block run after a success (`VC135.py:1571-1587`, and
identically `VC135.py:1475-1491` in copy-only mode).  `renameOk` is the
outcome of `os.rename` into the backup folder (an `OSError` is caught
and logged, leaving the source in place); `now` is the current time in
seconds.  The two `if` statements of the code run in sequence: the
first requires `use_backup` truthy and `backup_folder` truthy
(non-empty), the second requires `delete_after_conversion` and
`not use_backup`. -/
def dispose (s : ConversionSettings) (fileName : String)
    (renameOk : Bool) (now : Int) : DisposalResult :=
  let st0 : DisposalResult := ⟨true, none, false, none⟩
  let st1 :=
    if s.use_backup && !(s.backup_folder == "") then
      if renameOk then
        { st0 with sourceExists := false,
                   backupDest := some (joinPath s.backup_folder fileName) }
      else st0
    else st0
  if s.delete_after_conversion && !s.use_backup then
    if s.retention_time > 0 then
      { st1 with pending := some (now + s.retention_time * secondsPerDay) }
    else
      { st1 with sourceExists := false, deletedNow := true }
  else st1

/-- Environment of one `convert_file` run: the outcome of each external
effect the function performs, in program order. -/
structure Env where
  /-- `os.path.exists(destination_file)` at `VC135.py:1464` -/
  destExists : Bool
  /-- `shutil.copy2` succeeds (copy-only mode, `VC135.py:1472`) -/
  copyOk : Bool
  /-- the `ffprobe -v error` validation run exits 0 (`VC135.py:1504-1513`) -/
  probeOk : Bool
  /-- the `ffmpeg -c copy` remux into the temp file exits 0 (`VC135.py:1520-1531`) -/
  repairOk : Bool
  /-- `has_audio_stream(input_file)` (`VC135.py:1541`) -/
  hasAudio : Bool
  /-- `subprocess.Popen` finds `ffmpeg.exe` (`VC135.py:1552,1592`) -/
  ffmpegFound : Bool
  /-- `stop_event` observed set while reading output lines (`VC135.py:1561`) -/
  stopRequested : Bool
  /-- `process.wait()` return code (`VC135.py:1567`) -/
  exitCode : Int
  /-- `os.rename` into the backup folder succeeds -/
  renameOk : Bool
deriving Repr, DecidableEq

/-- Terminal outcome of one `convert_file` run. -/
inductive Outcome where
  | skippedOutsideWindow
  | skippedExisting
  | copied
  | copyFailed
  | preprocessFailed
  | noAudioForMp3
  | toolNotFound
  | stopped
  | success
  | transcodeFailed (code : Int)
deriving Repr, DecidableEq

/-- Observable effects of one `convert_file` run. -/
structure JobResult where
  outcome : Outcome
  /-- the source file still exists at its original path -/
  sourceExists : Bool
  backupDest : Option String
  deletedNow : Bool
  pending : Option Int
  /-- a write to the destination path was initiated (`shutil.copy2` or
  the main `ffmpeg` process was started with it as output target) -/
  destWritten : Bool
  /-- the `ffprobe` corruption validation was invoked -/
  probeRun : Bool
  /-- the stream-copy remux repair was invoked -/
  repairAttempted : Bool
  /-- transcoding consumed the repaired temp file instead of the original -/
  inputRepaired : Bool
  /-- the post-success disposal block was reached -/
  disposalRan : Bool
deriving Repr, DecidableEq

/-- `convert_file` (`VC135.py:1444-1597`), as a function of the settings
snapshot, the base name of the source file, the effect environment, the
current time `now` in seconds, and the current time of day `tod` in
minutes (fed to the time-window gate).  Control flow in program order:
time-window gate; destination-existence check; copy-only branch (direct
copy, then the disposal block); otherwise `ffprobe` validation, remux
repair only when validation failed (a failed repair returns with the
source untouched), the mp3 audio-stream guard, then the external
transcode, whose exit code 0 alone leads to the disposal block. -/
def convert_file (s : ConversionSettings) (fileName : String) (e : Env)
    (now : Int) (tod : Nat) : JobResult :=
  if !(is_within_allowed_hours tod s.start_time s.end_time
        s.no_time_restrictions) then
    ⟨.skippedOutsideWindow, true, none, false, none, false, false, false,
      false, false⟩
  else if e.destExists then
    ⟨.skippedExisting, true, none, false, none, false, false, false,
      false, false⟩
  else if s.copy_only then
    if e.copyOk then
      let d := dispose s fileName e.renameOk now
      ⟨.copied, d.sourceExists, d.backupDest, d.deletedNow, d.pending,
        true, false, false, false, true⟩
    else
      ⟨.copyFailed, true, none, false, none, true, false, false, false,
        false⟩
  else
    if !e.probeOk && !e.repairOk then
      ⟨.preprocessFailed, true, none, false, none, false, true, true,
        false, false⟩
    else
      let inputRepaired := !e.probeOk
      if s.output_format == "mp3" && !e.hasAudio then
        ⟨.noAudioForMp3, true, none, false, none, false, true,
          inputRepaired, inputRepaired, false⟩
      else if !e.ffmpegFound then
        ⟨.toolNotFound, true, none, false, none, false, true,
          inputRepaired, inputRepaired, false⟩
      else if e.stopRequested then
        ⟨.stopped, true, none, false, none, true, true, inputRepaired,
          inputRepaired, false⟩
      else if e.exitCode == 0 then
        let d := dispose s fileName e.renameOk now
        ⟨.success, d.sourceExists, d.backupDest, d.deletedNow, d.pending,
          true, true, inputRepaired, inputRepaired, true⟩
      else
        ⟨.transcodeFailed e.exitCode, true, none, false, none, true,
          true, inputRepaired, inputRepaired, false⟩

/-- State of the scan-loop / worker-pool system projected onto one
matching source file: whether its destination artifact exists, how many
jobs for it sit submitted in the executor queue, and how many
`convert_file` executions for it are past the opening existence check. -/
structure PoolState where
  destExists : Bool
  pendingJobs : Nat
  running : Nat
deriving Repr, DecidableEq

/-- Events of the scan/worker interleaving. -/
inductive PoolEvent where
  | scan
  | startJob
  | finishJob
deriving Repr, DecidableEq

/-- One step of the interleaving, faithful to the code:
`scan` is one `convert_videos` pass (`VC135.py:1622-1642`), which
submits the file whenever its destination artifact does not exist —
the filter consults nothing else; the code maintains no set of
in-flight paths.  `startJob` is a queued `convert_file` beginning
execution: its only guard is the same destination-existence check
(`VC135.py:1464`).  `finishJob` is a running job completing
successfully, which is when the destination artifact exists for sure. -/
def pool_step (st : PoolState) : PoolEvent → PoolState
  | .scan =>
      if st.destExists then st
      else { st with pendingJobs := st.pendingJobs + 1 }
  | .startJob =>
      match st.pendingJobs with
      | 0 => st
      | n + 1 =>
          if st.destExists then { st with pendingJobs := n }
          else { st with pendingJobs := n, running := st.running + 1 }
  | .finishJob =>
      match st.running with
      | 0 => st
      | n + 1 => { st with running := n, destExists := true }

/-- Run a sequence of interleaving events. -/
def pool_run (st : PoolState) (evs : List PoolEvent) : PoolState :=
  evs.foldl pool_step st

/-- Jobs in flight for the file: submitted-but-unstarted plus running. -/
def inFlight (st : PoolState) : Nat := st.pendingJobs + st.running

/-- Enablement state of the Use Backup Folder checkbox. -/
structure BackupCheckboxState where
  enabled : Bool
  checked : Bool
deriving Repr, DecidableEq

/-- `str.isdigit` for ASCII digit strings: non-empty and all digits. -/
def pyStrIsDigit (s : String) : Bool :=
  !(s == "") && s.toList.all Char.isDigit

/-- `int(text)` for a digit string, over the character list. -/
def strToNat (s : String) : Nat :=
  s.toList.foldl (fun acc c => acc * 10 + (c.toNat - 48)) 0

/-- `SettingsDialog.retention_time_changed` (`VC135.py:723-739`): the UI
normalization that disables and unchecks Use Backup Folder while
delete-after-conversion is checked with retention time 0, and
re-enables it otherwise. -/
def retention_time_changed (deleteAfterChecked : Bool) (text : String)
    (ub : BackupCheckboxState) : BackupCheckboxState :=
  let retention_time : Nat :=
    if pyStrIsDigit text then strToNat text else 0
  if deleteAfterChecked then
    if retention_time == 0 then
      if ub.enabled then ⟨false, false⟩ else ub
    else
      if !ub.enabled then ⟨true, ub.checked⟩ else ub
  else
    if !ub.enabled then ⟨true, ub.checked⟩ else ub

/-- A settings snapshot combining `use_backup` with immediate deletion
(`delete_after_conversion` true, `retention_time` 0); used to exercise
the disposal rules. -/
def settingsBackupAndDelete : ConversionSettings :=
  { source_folder := "src", destination_folder := "dst",
    backup_folder := "bak", delete_after_conversion := true,
    retention_time := 0, use_backup := true, output_format := "mov",
    video_codec := "libx264", audio_codec := "aac", copy_only := false,
    start_time := 0, end_time := 1439, no_time_restrictions := true }

/-- A snapshot with immediate deletion and no backup. -/
def settingsDeleteNow : ConversionSettings :=
  { settingsBackupAndDelete with use_backup := false, backup_folder := "" }

/-- A snapshot with delayed deletion (retention 5 days) and no backup. -/
def settingsDeleteLater : ConversionSettings :=
  { settingsDeleteNow with retention_time := 5 }

/-- A copy-only snapshot with no disposal configured. -/
def settingsCopyOnly : ConversionSettings :=
  { settingsDeleteNow with
    copy_only := true,
    delete_after_conversion := false }

/-- An mp3 (audio-only) snapshot with no configured audio codec. -/
def settingsMp3 : ConversionSettings :=
  { settingsDeleteNow with output_format := "mp3", audio_codec := "" }

/-- Environment of a fully successful run. -/
def envSuccess : Env :=
  { destExists := false, copyOk := true, probeOk := true,
    repairOk := true, hasAudio := true, ffmpegFound := true,
    stopRequested := false, exitCode := 0, renameOk := true }

/-- Environment of a run whose transcode exits with code 1. -/
def envExitOne : Env := { envSuccess with exitCode := 1 }

/-- Environment in which both validation and repair fail. -/
def envBothFail : Env :=
  { envSuccess with probeOk := false, repairOk := false }

/-- Claim C3: the time-window gate returns true whenever
`no_restriction` is true; otherwise, when `start <= end` it is allowed
iff `start <= now <= end`, and when `start > end` (window crossing
midnight) iff `now >= start` or `now <= end`; including the four
concrete examples 10:00 in [09:00, 17:00], 20:00 outside
[09:00, 17:00], 23:30 in the midnight-crossing [22:00, 06:00], and the
unconditional-override case. -/
theorem c3_time_window_gate :
    (∀ t s e : Nat, is_within_allowed_hours t s e true = true) ∧
    (∀ t s e : Nat, s ≤ e →
        (is_within_allowed_hours t s e false = true ↔ (s ≤ t ∧ t ≤ e))) ∧
    (∀ t s e : Nat, e < s →
        (is_within_allowed_hours t s e false = true ↔ (t ≥ s ∨ t ≤ e))) ∧
    is_within_allowed_hours 600 540 1020 false = true ∧
    is_within_allowed_hours 1200 540 1020 false = false ∧
    is_within_allowed_hours 1410 1320 360 false = true := by
  refine ⟨fun t s e => rfl, ?_, ?_, by decide, by decide, by decide⟩
  · intro t s e h
    simp [is_within_allowed_hours, h]
  · intro t s e h
    simp [is_within_allowed_hours, Nat.not_le.mpr h]

/-- Witness for C3 at a concrete input: 10:00 against the
[09:00, 17:00] window. -/
theorem c3_time_window_gate_witness :
    is_within_allowed_hours 600 540 1020 false = true ↔
      (540 ≤ 600 ∧ 600 ≤ 1020) :=
  c3_time_window_gate.2.1 600 540 1020 (by decide)

/-- Claim C4: the scan keeps exactly the source-directory entries whose
name matches a supported input extension and whose destination artifact
(same stem with the output extension, or the identical name in
copy-only mode) is not already present in the destination directory;
and concretely, sources `a.mp4, b.mp4` with destination already holding
`a.mov` (output format mov) scan to exactly `b.mp4`. -/
theorem c4_folder_scanner :
    (∀ (srcListing destListing : List String) (copyOnly : Bool)
        (outputFormat : String) (f : String),
        f ∈ convert_videos_scan srcListing destListing copyOnly
              outputFormat ↔
          (f ∈ srcListing ∧ matchesSupported f = true ∧
            destListing.contains
              (destination_name f copyOnly outputFormat) = false)) ∧
    convert_videos_scan ["a.mp4", "b.mp4"] ["a.mov"] false "mov" =
      ["b.mp4"] := by
  constructor
  · intro srcListing destListing copyOnly outputFormat f
    simp [convert_videos_scan, List.mem_filter, and_assoc]
  · decide

/-- Claim C5, counterexample: a missing transcoder binary does not
yield the empty mapping — `get_supported_encoders` only catches
`CalledProcessError`, so the `FileNotFoundError` raised by
`subprocess.run` propagates out of the probe. -/
theorem c5_counterexample :
    get_supported_encoders ToolInvocation.toolMissing ≠
      Except.ok ([] : List (String × EncoderPair)) := by
  simp [get_supported_encoders]

/-- Claim C5 as amended: a capability listing that exits non-zero is a
soft failure returning the empty mapping, but a missing tool binary
raises an uncaught `FileNotFoundError` instead of returning the empty
mapping. -/
theorem c5_probe_soft_failure :
    (∀ (code : Int) (stdout : String), code ≠ 0 →
        get_supported_encoders (ToolInvocation.exited code stdout) =
          Except.ok ([] : List (String × EncoderPair))) ∧
    get_supported_encoders ToolInvocation.toolMissing =
      Except.error "FileNotFoundError" := by
  constructor
  · intro code stdout h
    simp [get_supported_encoders, h]
  · rfl

/-- Witness for C5 at a concrete input: exit code 1 yields the empty
mapping. -/
theorem c5_probe_soft_failure_witness :
    get_supported_encoders (ToolInvocation.exited 1 "") =
      Except.ok ([] : List (String × EncoderPair)) :=
  c5_probe_soft_failure.1 1 "" (by decide)

/-- Claim C8, counterexample: the settings snapshot combining
`use_backup = true` with `delete_after_conversion = true` and
`retention_time = 0` passes `validate_settings` (the jsonschema has no
cross-field constraint) and, far from never reaching the disposal step,
reaches it after a successful conversion, where the backup move is
applied. -/
theorem c8_counterexample :
    validate_settings settingsBackupAndDelete = true ∧
    (convert_file settingsBackupAndDelete "a.mp4" envSuccess 0
        600).disposalRan = true ∧
    (convert_file settingsBackupAndDelete "a.mp4" envSuccess 0
        600).backupDest = some "bak/a.mp4" := by
  refine ⟨by decide, by decide, by decide⟩

/-- Claim C8 as amended: the combination is not rejected or normalized
at snapshot construction and can reach disposal, but the disposal step
itself never applies both actions — its delete branch requires
`use_backup` false, so an immediate deletion and a backup move are
never both applied to the same file; moreover the settings-dialog
handler normalizes the combination away in the UI by disabling and
unchecking Use Backup Folder whenever delete-after-conversion is on
with retention time 0. -/
theorem c8_backup_delete_mutual_exclusion :
    (∀ (s : ConversionSettings) (fileName : String) (renameOk : Bool)
        (now : Int),
        ¬((dispose s fileName renameOk now).deletedNow = true ∧
          (dispose s fileName renameOk now).backupDest.isSome = true)) ∧
    (∀ ub : BackupCheckboxState, ub.enabled = true →
        retention_time_changed true "0" ub =
          BackupCheckboxState.mk false false) := by
  constructor
  · intro s fileName renameOk now
    cases hub : s.use_backup <;> simp [dispose, hub, apply_ite]
  · intro ub h
    obtain ⟨ue, uc⟩ := ub
    simp only at h
    subst h
    cases uc <;> decide

/-- Witness for C8 at a concrete input: the handler turns an enabled,
checked Use Backup Folder checkbox off when retention is 0 with
delete-after-conversion checked. -/
theorem c8_backup_delete_mutual_exclusion_witness :
    retention_time_changed true "0" (BackupCheckboxState.mk true true) =
      BackupCheckboxState.mk false false :=
  c8_backup_delete_mutual_exclusion.2 (BackupCheckboxState.mk true true)
    rfl

/-- Claim C9, evaluated at the failing interleaving: with the
destination artifact not yet produced, a scan submits the file, the
job starts, a second scan fires before the job finishes and submits the
same path again, and the second job also passes the
destination-existence check — two `convert_file` executions for the
same source path are in flight simultaneously, because the code tracks
no in-flight paths and filters only on destination existence. -/
theorem c9_double_submission :
    (pool_run (PoolState.mk false 0 0)
        [PoolEvent.scan, PoolEvent.startJob, PoolEvent.scan,
         PoolEvent.startJob]).running = 2 ∧
    inFlight (pool_run (PoolState.mk false 0 0)
        [PoolEvent.scan, PoolEvent.startJob, PoolEvent.scan,
         PoolEvent.startJob]) = 2 := by
  decide

/-- Claim C1: disposal after a success follows mutually exclusive
rules — with a configured backup folder (`start_conversion` refuses to
run with `use_backup` set and no backup folder), `use_backup` true
moves the source into the backup directory under the same filename and
a failed move leaves the source in place; otherwise
`delete_after_conversion` with retention 0 deletes the source
immediately, retention `r > 0` leaves the source in place and schedules
a deletion firing at now + r days (r * 86400 seconds); otherwise the
source is left untouched. -/
theorem c1_disposal_rules (s : ConversionSettings) (fileName : String)
    (renameOk : Bool) (now : Int) (hbf : s.backup_folder ≠ "") :
    (s.use_backup = true →
        (renameOk = true →
            dispose s fileName renameOk now =
              DisposalResult.mk false
                (some (joinPath s.backup_folder fileName)) false none) ∧
        (renameOk = false →
            dispose s fileName renameOk now =
              DisposalResult.mk true none false none)) ∧
    (s.use_backup = false → s.delete_after_conversion = true →
        (s.retention_time = 0 →
            (dispose s fileName renameOk now).sourceExists = false ∧
            (dispose s fileName renameOk now).deletedNow = true) ∧
        (0 < s.retention_time →
            (dispose s fileName renameOk now).sourceExists = true ∧
            (dispose s fileName renameOk now).deletedNow = false ∧
            (dispose s fileName renameOk now).pending =
              some (now + s.retention_time * secondsPerDay))) ∧
    (s.use_backup = false → s.delete_after_conversion = false →
        dispose s fileName renameOk now =
          DisposalResult.mk true none false none) := by
  have hb : (s.backup_folder == "") = false := beq_eq_false_iff_ne.mpr hbf
  refine ⟨fun hub => ⟨fun hr => ?_, fun hr => ?_⟩,
          fun hub hdel => ⟨fun hr0 => ?_, fun hrpos => ?_⟩,
          fun hub hdel => ?_⟩
  · simp [dispose, hub, hb, hr]
  · simp [dispose, hub, hb, hr]
  · simp [dispose, hub, hdel, hr0]
  · simp [dispose, hub, hdel, hrpos]
  · simp [dispose, hub, hdel]

/-- Witness for C1 at a concrete input: backup configured ("bak"),
successful rename moves `a.mp4` there. -/
theorem c1_disposal_rules_witness :
    dispose settingsBackupAndDelete "a.mp4" true 0 =
      DisposalResult.mk false (some (joinPath "bak" "a.mp4")) false
        none :=
  ((c1_disposal_rules settingsBackupAndDelete "a.mp4" true 0
      (by decide)).1 rfl).1 rfl

set_option maxHeartbeats 2000000 in
/-- Claim C2: once a job reaches the encoding stage, disposal runs iff
the external transcode exits with code 0 (iff the direct copy succeeds
in copy-only mode); on a non-zero exit the outcome is
`transcodeFailed` with that code, no disposal action is applied, and
the source file is untouched; and globally, a run whose disposal block
was reached must have had a successful copy or a zero exit code. -/
theorem c2_disposal_iff_exit_zero (s : ConversionSettings)
    (fileName : String) (e : Env) (now : Int) (tod : Nat)
    (hgate : is_within_allowed_hours tod s.start_time s.end_time
        s.no_time_restrictions = true)
    (hdest : e.destExists = false) :
    (s.copy_only = false →
        (e.probeOk = true ∨ e.repairOk = true) →
        (s.output_format = "mp3" → e.hasAudio = true) →
        e.ffmpegFound = true → e.stopRequested = false →
        (((convert_file s fileName e now tod).disposalRan = true ↔
            e.exitCode = 0) ∧
          (e.exitCode ≠ 0 →
            (convert_file s fileName e now tod).outcome =
                Outcome.transcodeFailed e.exitCode ∧
              (convert_file s fileName e now tod).sourceExists = true ∧
              (convert_file s fileName e now tod).backupDest = none ∧
              (convert_file s fileName e now tod).deletedNow = false ∧
              (convert_file s fileName e now tod).pending = none))) ∧
    (s.copy_only = true →
        ((convert_file s fileName e now tod).disposalRan = true ↔
          e.copyOk = true)) ∧
    ((convert_file s fileName e now tod).disposalRan = true →
        (s.copy_only = true ∧ e.copyOk = true) ∨
          (s.copy_only = false ∧ e.exitCode = 0)) := by
  refine ⟨fun hco hpre hmp3 hff hsr => ⟨?_, fun hec => ?_⟩,
          fun hco => ?_, fun hd => ?_⟩
  · unfold convert_file
    split_ifs <;> simp_all
  · unfold convert_file
    split_ifs <;> simp_all
  · unfold convert_file
    split_ifs <;> simp_all
  · revert hd
    unfold convert_file
    split_ifs <;> simp_all

/-- Witness for C2 at a concrete input: a transcode exiting with code 1
is recorded as a failure and the source stays in place. -/
theorem c2_disposal_iff_exit_zero_witness :
    (convert_file settingsDeleteNow "a.mp4" envExitOne 0 600).outcome =
        Outcome.transcodeFailed 1 ∧
      (convert_file settingsDeleteNow "a.mp4" envExitOne 0
          600).sourceExists = true ∧
      (convert_file settingsDeleteNow "a.mp4" envExitOne 0
          600).disposalRan = false := by
  have h := (c2_disposal_iff_exit_zero settingsDeleteNow "a.mp4"
      envExitOne 0 600 (by decide) rfl).1 rfl (Or.inl rfl)
      (fun _ => rfl) rfl rfl
  refine ⟨(h.2 (by decide)).1, (h.2 (by decide)).2.1, ?_⟩
  have h2 := h.1
  cases hd : (convert_file settingsDeleteNow "a.mp4" envExitOne 0
      600).disposalRan
  · rfl
  · exact absurd (h2.mp hd) (by decide)

set_option maxHeartbeats 2000000 in
/-- Claim C6: in the conversion path, the stream-copy remux repair is
attempted exactly when the `ffprobe` validation fails; an input that
validates cleanly is transcoded unmodified; and when both validation
and repair fail the job ends in `preprocessFailed` with the source file
untouched (not moved, not deleted, no deletion scheduled), no write to
the destination ever initiated, and disposal never run. -/
theorem c6_integrity_repair (s : ConversionSettings)
    (fileName : String) (e : Env) (now : Int) (tod : Nat)
    (hgate : is_within_allowed_hours tod s.start_time s.end_time
        s.no_time_restrictions = true)
    (hdest : e.destExists = false) (hcopy : s.copy_only = false) :
    ((convert_file s fileName e now tod).repairAttempted =
        !e.probeOk) ∧
    (e.probeOk = true →
        (convert_file s fileName e now tod).inputRepaired = false) ∧
    (e.probeOk = false → e.repairOk = false →
        (convert_file s fileName e now tod).outcome =
            Outcome.preprocessFailed ∧
          (convert_file s fileName e now tod).sourceExists = true ∧
          (convert_file s fileName e now tod).backupDest = none ∧
          (convert_file s fileName e now tod).deletedNow = false ∧
          (convert_file s fileName e now tod).pending = none ∧
          (convert_file s fileName e now tod).destWritten = false ∧
          (convert_file s fileName e now tod).disposalRan = false) := by
  refine ⟨?_, fun hp => ?_, fun hp hr => ?_⟩ <;>
    · unfold convert_file
      split_ifs <;> simp_all

/-- Witness for C6 at a concrete input: both validation and repair
fail. -/
theorem c6_integrity_repair_witness :
    (convert_file settingsDeleteNow "a.mp4" envBothFail 0 600).outcome =
        Outcome.preprocessFailed ∧
      (convert_file settingsDeleteNow "a.mp4" envBothFail 0
          600).sourceExists = true ∧
      (convert_file settingsDeleteNow "a.mp4" envBothFail 0
          600).backupDest = none ∧
      (convert_file settingsDeleteNow "a.mp4" envBothFail 0
          600).deletedNow = false ∧
      (convert_file settingsDeleteNow "a.mp4" envBothFail 0
          600).pending = none ∧
      (convert_file settingsDeleteNow "a.mp4" envBothFail 0
          600).destWritten = false ∧
      (convert_file settingsDeleteNow "a.mp4" envBothFail 0
          600).disposalRan = false :=
  (c6_integrity_repair settingsDeleteNow "a.mp4" envBothFail 0 600
      (by decide) rfl rfl).2.2 rfl rfl

/-- Claim C7: the command builder follows the fixed priority — an
audio-only (mp3) output yields a video-less command using the
configured audio codec, falling back to the software encoder
`libmp3lame` when unset; otherwise a detected hardware encoder's h264
encoder replaces the configured video codec while the configured audio
codec is kept; otherwise the configured codecs are used verbatim; and
the hardware vendor is chosen by the fixed deterministic priority
nvidia before intel before amd. -/
theorem c7_command_builder (s : ConversionSettings)
    (g : List (String × EncoderPair)) (inputFile outputFile : String) :
    (s.output_format = "mp3" →
        (s.audio_codec = "" →
            build_ffmpeg_command s g inputFile outputFile =
              [ffmpegExe, "-y", "-i", inputFile, "-vn", "-acodec",
               "libmp3lame", outputFile]) ∧
        (s.audio_codec ≠ "" →
            build_ffmpeg_command s g inputFile outputFile =
              [ffmpegExe, "-y", "-i", inputFile, "-vn", "-acodec",
               s.audio_codec, outputFile])) ∧
    (s.output_format ≠ "mp3" →
        (∀ enc : EncoderPair, get_gpu_encoder g = some enc →
            build_ffmpeg_command s g inputFile outputFile =
              [ffmpegExe, "-y", "-i", inputFile, "-vcodec", enc.h264,
               "-acodec", s.audio_codec, outputFile]) ∧
        (get_gpu_encoder g = none →
            build_ffmpeg_command s g inputFile outputFile =
              [ffmpegExe, "-y", "-i", inputFile, "-vcodec",
               s.video_codec, "-acodec", s.audio_codec, outputFile])) ∧
    (∀ enc : EncoderPair, g.lookup "nvidia" = some enc →
        get_gpu_encoder g = some enc) ∧
    (g.lookup "nvidia" = none →
        (∀ enc : EncoderPair, g.lookup "intel" = some enc →
            get_gpu_encoder g = some enc) ∧
        (g.lookup "intel" = none →
            get_gpu_encoder g = g.lookup "amd")) := by
  refine ⟨fun hf => ⟨fun ha => ?_, fun ha => ?_⟩,
          fun hf => ⟨fun enc hg => ?_, fun hg => ?_⟩,
          fun enc hn => ?_, fun hn => ⟨fun enc hi => ?_, fun hi => ?_⟩⟩
  · simp [build_ffmpeg_command, hf, ha]
  · simp [build_ffmpeg_command, hf, ha, beq_eq_false_iff_ne.mpr ha]
  · simp [build_ffmpeg_command, beq_eq_false_iff_ne.mpr hf, hg]
  · simp [build_ffmpeg_command, beq_eq_false_iff_ne.mpr hf, hg]
  · simp [get_gpu_encoder, hn]
  · simp [get_gpu_encoder, hn, hi]
  · simp [get_gpu_encoder, hn, hi]

/-- Witness for C7 at a concrete input: an mp3 target with no
configured audio codec builds the video-less software-audio command. -/
theorem c7_command_builder_witness :
    build_ffmpeg_command settingsMp3 [] "in.mp4" "out.mp3" =
      [ffmpegExe, "-y", "-i", "in.mp4", "-vn", "-acodec", "libmp3lame",
       "out.mp3"] :=
  ((c7_command_builder settingsMp3 [] "in.mp4" "out.mp3").1 rfl).1 rfl

set_option maxHeartbeats 2000000 in
/-- Claim C10: in copy-only mode a job never invokes the corruption
probe or the remux repair — the environment's validation and repair
outcomes are irrelevant — and a successful direct copy produces the
destination artifact and then applies disposal. -/
theorem c10_copy_only_skips_preprocessing (s : ConversionSettings)
    (fileName : String) (e : Env) (now : Int) (tod : Nat)
    (hgate : is_within_allowed_hours tod s.start_time s.end_time
        s.no_time_restrictions = true)
    (hdest : e.destExists = false) (hcopy : s.copy_only = true) :
    ((convert_file s fileName e now tod).probeRun = false ∧
      (convert_file s fileName e now tod).repairAttempted = false ∧
      (convert_file s fileName e now tod).inputRepaired = false) ∧
    (e.copyOk = true →
        (convert_file s fileName e now tod).outcome = Outcome.copied ∧
          (convert_file s fileName e now tod).destWritten = true ∧
          (convert_file s fileName e now tod).disposalRan = true) := by
  refine ⟨?_, fun hcp => ?_⟩ <;>
    · unfold convert_file
      split_ifs <;> simp_all

/-- Witness for C10 at a concrete input: copy-only settings with an
input that would fail both validation and repair still copy, with
neither probe nor repair invoked. -/
theorem c10_copy_only_skips_preprocessing_witness :
    ((convert_file settingsCopyOnly "a.mp4"
        { envBothFail with copyOk := true } 0 600).probeRun = false ∧
      (convert_file settingsCopyOnly "a.mp4"
        { envBothFail with copyOk := true } 0 600).repairAttempted =
          false ∧
      (convert_file settingsCopyOnly "a.mp4"
        { envBothFail with copyOk := true } 0 600).inputRepaired =
          false) ∧
    ((convert_file settingsCopyOnly "a.mp4"
        { envBothFail with copyOk := true } 0 600).outcome =
          Outcome.copied ∧
      (convert_file settingsCopyOnly "a.mp4"
        { envBothFail with copyOk := true } 0 600).destWritten = true ∧
      (convert_file settingsCopyOnly "a.mp4"
        { envBothFail with copyOk := true } 0 600).disposalRan =
          true) :=
  ⟨(c10_copy_only_skips_preprocessing settingsCopyOnly "a.mp4"
      { envBothFail with copyOk := true } 0 600 (by decide) rfl rfl).1,
    (c10_copy_only_skips_preprocessing settingsCopyOnly "a.mp4"
      { envBothFail with copyOk := true } 0 600 (by decide) rfl rfl).2
      rfl⟩
